import Mathlib

/-!
Shallow embedding of the subscription / entitlement engine of
`src/backend/server.py` (Sadaa Instrumentals API).

The MongoDB collections `subscriptions` and `users` are modelled as lists in
insertion order; `find_one` is `List.find?`, `insert_one` appends,
`update_one` rewrites the first matching record, `update_many` rewrites all
matching records.  Timestamps are UTC instants modelled as integers counting
seconds; `timedelta(days = d)` is `d * 86400`.  Prices are rationals.
-/

namespace Sadaa

/-- The `Subscription` pydantic model (server.py, lines 94-101). -/
structure Subscription where
  id : String
  user_id : String
  is_active : Bool
  plan : String
  price : ℚ
  subscribed_at : Int
  expires_at : Option Int
deriving DecidableEq

/-- The `User` pydantic model (server.py, lines 107-111). -/
structure User where
  id : String
  device_id : String
  is_subscribed : Bool
  created_at : Int
deriving DecidableEq

/-- The relevant database state: the `subscriptions` and `users` collections. -/
structure DB where
  subs : List Subscription
  users : List User
deriving DecidableEq

/-- `db.subscriptions.find_one({"user_id": uid, "is_active": True})`. -/
def findActiveSub (subs : List Subscription) (uid : String) : Option Subscription :=
  subs.find? (fun s => s.user_id == uid && s.is_active)

/-- `db.subscriptions.update_one({"id": sid}, {"$set": {"is_active": False}})`:
rewrite the first record whose id matches. -/
def markInactiveById (sid : String) : List Subscription → List Subscription
  | [] => []
  | s :: rest =>
    if s.id == sid then { s with is_active := false } :: rest
    else s :: markInactiveById sid rest

/-- `db.users.update_one({"id": uid}, {"$set": {"is_subscribed": b}})`:
rewrite the first user whose id matches (no-op when absent). -/
def setUserSubscribed (uid : String) (b : Bool) : List User → List User
  | [] => []
  | u :: rest =>
    if u.id == uid then { u with is_subscribed := b } :: rest
    else u :: setUserSubscribed uid b rest

/-- `db.subscriptions.update_many({"user_id": uid, "is_active": True},
{"$set": {"is_active": False}})`. -/
def deactivateAll (uid : String) (subs : List Subscription) : List Subscription :=
  subs.map (fun s =>
    if s.user_id == uid && s.is_active then { s with is_active := false } else s)

/-- The number of records matched (and modified) by the bulk update of
`cancel_subscription`: active subscription rows for `uid`. -/
def countActiveFor (uid : String) (subs : List Subscription) : Nat :=
  (subs.filter (fun s => s.user_id == uid && s.is_active)).length

/-- Result shape of `GET /subscription/status/{user_id}`. -/
structure StatusResult where
  is_subscribed : Bool
  subscription : Option Subscription
deriving DecidableEq

/-- Result shape of `POST /subscription/restore/{user_id}`; the negative
branch of the endpoint carries no `subscription` key, which we read as
`none`. -/
structure RestoreResult where
  restored : Bool
  subscription : Option Subscription
deriving DecidableEq

/-- Result shape of `POST /subscription/cancel/{user_id}`. -/
structure CancelResult where
  message : String
  cancelled : Bool
deriving DecidableEq

/-- `subscribe` (server.py, lines 282-315).  `fresh` is the uuid generated
for a newly inserted subscription and `now` is `datetime.utcnow()`. -/
def subscribe (uid plan fresh : String) (now : Int) (st : DB) : Subscription × DB :=
  match findActiveSub st.subs uid with
  | some existing => (existing, st)
  | none =>
    let expires_at : Int := if plan == "yearly" then now + 365 * 86400 else now + 30 * 86400
    let price : ℚ := if plan == "yearly" then 499 else 53
    let subscription : Subscription :=
      { id := fresh, user_id := uid, is_active := true, plan := plan,
        price := price, subscribed_at := now, expires_at := some expires_at }
    (subscription,
      { subs := st.subs ++ [subscription],
        users := setUserSubscribed uid true st.users })

/-- `get_subscription_status` (server.py, lines 318-352): status check with
lazy expiry. -/
def get_subscription_status (uid : String) (now : Int) (st : DB) : StatusResult × DB :=
  match findActiveSub st.subs uid with
  | none => ({ is_subscribed := false, subscription := none }, st)
  | some sub =>
    match sub.expires_at with
    | some e =>
      if e < now then
        ({ is_subscribed := false, subscription := none },
          { subs := markInactiveById sub.id st.subs,
            users := setUserSubscribed uid false st.users })
      else
        ({ is_subscribed := true, subscription := some sub }, st)
    | none => ({ is_subscribed := true, subscription := some sub }, st)

/-- `restore_purchase` (server.py, lines 355-372): a pure read. -/
def restore_purchase (uid : String) (st : DB) : RestoreResult × DB :=
  match findActiveSub st.subs uid with
  | some sub => ({ restored := true, subscription := some sub }, st)
  | none => ({ restored := false, subscription := none }, st)

/-- `cancel_subscription` (server.py, lines 375-388): bulk deactivation plus
unconditional user-cache reset. -/
def cancel_subscription (uid : String) (st : DB) : CancelResult × DB :=
  let modified := countActiveFor uid st.subs
  ({ message := "Subscription cancelled", cancelled := modified > 0 },
    { subs := deactivateAll uid st.subs,
      users := setUserSubscribed uid false st.users })

/-- One entitlement-engine operation, for sequential-execution claims. -/
inductive Op where
  | sub (uid plan fresh : String) (now : Int)
  | status (uid : String) (now : Int)
  | restore (uid : String)
  | cancel (uid : String)
deriving DecidableEq

/-- The database transition of one operation. -/
def stepOp (op : Op) (st : DB) : DB :=
  match op with
  | Op.sub uid plan fresh now => (subscribe uid plan fresh now st).2
  | Op.status uid now => (get_subscription_status uid now st).2
  | Op.restore uid => (restore_purchase uid st).2
  | Op.cancel uid => (cancel_subscription uid st).2

/-- Sequential execution of a list of operations. -/
def runOps (ops : List Op) (st : DB) : DB :=
  match ops with
  | [] => st
  | op :: rest => runOps rest (stepOp op st)

/-- The 0-or-1-active-rows-per-user invariant of the data model. -/
def ActiveInv (st : DB) : Prop :=
  ∀ uid : String, countActiveFor uid st.subs ≤ 1

/-- A sample user record, for concrete witnesses. -/
def sampleUser : User :=
  { id := "u1", device_id := "dev1", is_subscribed := true, created_at := 0 }

/-- A sample active subscription that expires at time 100. -/
def sampleSub : Subscription :=
  { id := "s1", user_id := "u1", is_active := true, plan := "monthly",
    price := 53, subscribed_at := 0, expires_at := some 100 }

/-- A sample database: one user with one active subscription. -/
def sampleDB : DB :=
  { subs := [sampleSub], users := [sampleUser] }

/-- A sample database with no subscription rows at all. -/
def emptyDB : DB :=
  { subs := [], users := [] }

/-- A sample inactive (cancelled/expired) subscription row. -/
def inactiveSub : Subscription :=
  { id := "s0", user_id := "u1", is_active := false, plan := "monthly",
    price := 53, subscribed_at := 0, expires_at := some 100 }

/-- A user whose `is_subscribed` cache is stale-false while an active
subscription row exists. -/
def staleUser : User :=
  { id := "u1", device_id := "dev1", is_subscribed := false, created_at := 0 }

/-- A database with a stale-false user cache and one active subscription. -/
def staleDB : DB :=
  { subs := [sampleSub], users := [staleUser] }

/-- A database holding only an inactive subscription row. -/
def cancelledDB : DB :=
  { subs := [inactiveSub], users := [sampleUser] }

/-! ## Helper lemmas -/

theorem flip_already_inactive (s : Subscription) (h : s.is_active = false) :
    { s with is_active := false } = s := by
  cases s
  subst h
  rfl

theorem findActiveSub_mem {subs : List Subscription} {uid : String} {s : Subscription}
    (h : findActiveSub subs uid = some s) : s ∈ subs :=
  List.mem_of_find?_eq_some h

theorem findActiveSub_props {subs : List Subscription} {uid : String} {s : Subscription}
    (h : findActiveSub subs uid = some s) : s.user_id = uid ∧ s.is_active = true := by
  have hp := List.find?_some h
  simp only [Bool.and_eq_true, beq_iff_eq] at hp
  exact hp

theorem markInactiveById_get?_inactive (sid : String) (subs : List Subscription) :
    ∀ (i : Nat) (r : Subscription), subs.get? i = some r → r.is_active = false →
      (markInactiveById sid subs).get? i = some r := by
  induction subs with
  | nil => intro i r h _; simp at h
  | cons s rest ih =>
    intro i r h hr
    cases i with
    | zero =>
      simp only [List.get?_cons_zero, Option.some.injEq] at h
      subst h
      by_cases hs : (s.id == sid) = true
      · simp only [markInactiveById, if_pos hs, List.get?_cons_zero,
          flip_already_inactive s hr]
      · simp only [markInactiveById, if_neg hs, List.get?_cons_zero]
    | succ n =>
      simp only [List.get?_cons_succ] at h
      by_cases hs : (s.id == sid) = true
      · simp only [markInactiveById, if_pos hs, List.get?_cons_succ]
        exact h
      · simp only [markInactiveById, if_neg hs, List.get?_cons_succ]
        exact ih n r h hr

theorem markInactiveById_find?_inactive (sid : String) (subs : List Subscription)
    (h : ∃ r0 ∈ subs, (r0.id == sid) = true) :
    ∃ r, (markInactiveById sid subs).find? (fun r => r.id == sid) = some r ∧
      r.is_active = false := by
  induction subs with
  | nil => simp at h
  | cons s rest ih =>
    by_cases hs : (s.id == sid) = true
    · refine ⟨{ s with is_active := false }, ?_, rfl⟩
      simp only [markInactiveById, if_pos hs]
      exact List.find?_cons_of_pos _ hs
    · obtain ⟨r0, hr0, hid⟩ := h
      rcases List.mem_cons.mp hr0 with rfl | hmem
      · exact absurd hid hs
      · obtain ⟨r, hfind, hract⟩ := ih ⟨r0, hmem, hid⟩
        refine ⟨r, ?_, hract⟩
        simp only [markInactiveById, if_neg hs]
        rw [List.find?_cons_of_neg _ (by simpa using hs)]
        exact hfind

theorem setUserSubscribed_find? (uid : String) (b : Bool) (users : List User) :
    ∀ u, (setUserSubscribed uid b users).find? (fun u => u.id == uid) = some u →
      u.is_subscribed = b := by
  induction users with
  | nil => intro u h; simp [setUserSubscribed] at h
  | cons v rest ih =>
    intro u h
    by_cases hv : (v.id == uid) = true
    · simp only [setUserSubscribed, if_pos hv] at h
      rw [List.find?_cons_of_pos _ (by simpa using hv)] at h
      simp only [Option.some.injEq] at h
      subst h
      rfl
    · simp only [setUserSubscribed, if_neg hv] at h
      rw [List.find?_cons_of_neg _ (by simpa using hv)] at h
      exact ih u h

theorem countActiveFor_cons (uid : String) (s : Subscription) (rest : List Subscription) :
    countActiveFor uid (s :: rest) =
      (if (s.user_id == uid && s.is_active) = true then 1 else 0) + countActiveFor uid rest := by
  simp only [countActiveFor, List.filter_cons]
  split <;> simp [Nat.add_comm]

theorem countActiveFor_cons_flip (uid : String) (s : Subscription)
    (rest : List Subscription) :
    countActiveFor uid ({ s with is_active := false } :: rest) = countActiveFor uid rest := by
  simp [countActiveFor_cons]

theorem countActiveFor_append_single (uid : String) (subs : List Subscription)
    (x : Subscription) :
    countActiveFor uid (subs ++ [x]) =
      countActiveFor uid subs + (if (x.user_id == uid && x.is_active) = true then 1 else 0) := by
  simp only [countActiveFor, List.filter_append, List.length_append]
  congr 1
  by_cases hx : (x.user_id == uid && x.is_active) = true
  · simp [List.filter_cons, hx]
  · simp [List.filter_cons, hx]

theorem countActiveFor_eq_zero_of_none {uid : String} {subs : List Subscription}
    (h : findActiveSub subs uid = none) : countActiveFor uid subs = 0 := by
  have hall := List.find?_eq_none.mp h
  simp only [countActiveFor, List.length_eq_zero]
  exact List.filter_eq_nil_iff.mpr (fun s hs => by simpa using hall s hs)

theorem countActiveFor_markInactiveById_le (sid uid : String) (subs : List Subscription) :
    countActiveFor uid (markInactiveById sid subs) ≤ countActiveFor uid subs := by
  induction subs with
  | nil => simp [markInactiveById]
  | cons s rest ih =>
    by_cases hs : (s.id == sid) = true
    · simp only [markInactiveById, if_pos hs, countActiveFor_cons_flip]
      rw [countActiveFor_cons]
      exact Nat.le_add_left _ _
    · simp only [markInactiveById, if_neg hs, countActiveFor_cons]
      exact Nat.add_le_add_left ih _

theorem countActiveFor_deactivateAll_le (uid uid' : String) (subs : List Subscription) :
    countActiveFor uid' (deactivateAll uid subs) ≤ countActiveFor uid' subs := by
  induction subs with
  | nil => simp [deactivateAll]
  | cons s rest ih =>
    simp only [deactivateAll, List.map_cons]
    by_cases hc : (s.user_id == uid && s.is_active) = true
    · simp only [if_pos hc, countActiveFor_cons_flip]
      rw [countActiveFor_cons]
      exact Nat.le_trans ih (Nat.le_add_left _ _)
    · simp only [if_neg hc, countActiveFor_cons]
      exact Nat.add_le_add_left ih _

theorem restore_purchase_state (uid : String) (st : DB) :
    (restore_purchase uid st).2 = st := by
  cases h : findActiveSub st.subs uid <;> simp [restore_purchase, h]

theorem stepOp_preserves_activeInv (op : Op) (st : DB) (h : ActiveInv st) :
    ActiveInv (stepOp op st) := by
  cases op with
  | sub uid plan fresh now =>
    cases hf : findActiveSub st.subs uid with
    | some s =>
      simpa only [stepOp, subscribe, hf] using h
    | none =>
      intro uid'
      simp only [stepOp, subscribe, hf]
      rw [countActiveFor_append_single]
      by_cases hu : uid = uid'
      · subst hu
        rw [countActiveFor_eq_zero_of_none hf]
        simp
      · have : (uid == uid') = false := by simpa using hu
        simp only [this, Bool.false_and, if_neg (by simp : ¬ false = true), Nat.add_zero]
        exact h uid'
  | status uid now =>
    cases hf : findActiveSub st.subs uid with
    | none => simpa only [stepOp, get_subscription_status, hf] using h
    | some s =>
      cases he : s.expires_at with
      | none => simpa only [stepOp, get_subscription_status, hf, he] using h
      | some e =>
        by_cases hlt : e < now
        · intro uid'
          simp only [stepOp, get_subscription_status, hf, he, if_pos hlt]
          exact Nat.le_trans (countActiveFor_markInactiveById_le _ _ _) (h uid')
        · simpa only [stepOp, get_subscription_status, hf, he, if_neg hlt] using h
  | restore uid =>
    simpa only [stepOp, restore_purchase_state] using h
  | cancel uid =>
    intro uid'
    simp only [stepOp, cancel_subscription]
    exact Nat.le_trans (countActiveFor_deactivateAll_le _ _ _) (h uid')

theorem get?_append_of_inactive (subs tail : List Subscription) (i : Nat) (r : Subscription)
    (h : subs.get? i = some r) : (subs ++ tail).get? i = some r := by
  rw [List.get?_append (by exact (List.get?_eq_some.mp h).choose)]
  exact h

theorem deactivateAll_get?_inactive (uid : String) (subs : List Subscription) (i : Nat)
    (r : Subscription) (h : subs.get? i = some r) (hr : r.is_active = false) :
    (deactivateAll uid subs).get? i = some r := by
  rw [deactivateAll, List.get?_map, h]
  simp [hr]

/-! ## Claims -/

/-- Claim C1: for every user with an active subscription row whose `expires_at`
is set and earlier than the current time, `get_subscription_status` performs the
lazy expiry transition — the row found by its id is now inactive, the first user
record with that user id has `is_subscribed = false`, and the call returns
`{is_subscribed: false, subscription: null}`; if the active row is not expired
the call returns `{is_subscribed: true, subscription: that row}` and leaves the
state unchanged. -/
theorem claim_C1_lazy_expiry (st : DB) (uid : String) (now : Int) (s : Subscription)
    (h : findActiveSub st.subs uid = some s) :
    (∀ e : Int, s.expires_at = some e → e < now →
      (get_subscription_status uid now st).1 =
        { is_subscribed := false, subscription := none } ∧
      (∃ r, ((get_subscription_status uid now st).2.subs.find? (fun r => r.id == s.id)) =
          some r ∧ r.is_active = false) ∧
      (∀ u, ((get_subscription_status uid now st).2.users.find? (fun u => u.id == uid)) =
          some u → u.is_subscribed = false)) ∧
    ((∀ e : Int, s.expires_at = some e → ¬ e < now) →
      get_subscription_status uid now st =
        ({ is_subscribed := true, subscription := some s }, st)) := by
  constructor
  · intro e he hlt
    refine ⟨by simp [get_subscription_status, h, he, hlt], ?_, ?_⟩
    · have hst : (get_subscription_status uid now st).2.subs = markInactiveById s.id st.subs := by
        simp [get_subscription_status, h, he, hlt]
      rw [hst]
      exact markInactiveById_find?_inactive s.id st.subs ⟨s, findActiveSub_mem h, by simp⟩
    · intro u hu
      have hst : (get_subscription_status uid now st).2.users =
          setUserSubscribed uid false st.users := by
        simp [get_subscription_status, h, he, hlt]
      rw [hst] at hu
      exact setUserSubscribed_find? uid false st.users u hu
  · intro hne
    cases he : s.expires_at with
    | none => simp [get_subscription_status, h, he]
    | some e => simp [get_subscription_status, h, he, hne e he]

/-- Witness for C1 at a concrete expired subscription. -/
theorem claim_C1_witness :
    (get_subscription_status "u1" 200 sampleDB).1 =
      { is_subscribed := false, subscription := none } :=
  ((claim_C1_lazy_expiry sampleDB "u1" 200 sampleSub (by decide)).1 100
    (by decide) (by decide)).1

/-- Claim C2: while a user already has an active subscription row, `subscribe`
returns that row unchanged and modifies nothing, for any plan; a second
`subscribe` call straight after returns the same subscription id. -/
theorem claim_C2_subscribe_idempotent (st : DB) (uid plan fresh : String) (now : Int)
    (s : Subscription) (h : findActiveSub st.subs uid = some s) :
    subscribe uid plan fresh now st = (s, st) ∧
    ∀ (plan2 fresh2 : String) (now2 : Int),
      (subscribe uid plan2 fresh2 now2 (subscribe uid plan fresh now st).2).1.id = s.id := by
  have h1 : subscribe uid plan fresh now st = (s, st) := by simp [subscribe, h]
  refine ⟨h1, ?_⟩
  intro plan2 fresh2 now2
  rw [h1]
  simp [subscribe, h]

/-- Witness for C2 at a concrete active subscription. -/
theorem claim_C2_witness :
    subscribe "u1" "yearly" "s2" 7 sampleDB = (sampleSub, sampleDB) :=
  (claim_C2_subscribe_idempotent sampleDB "u1" "yearly" "s2" 7 sampleSub (by decide)).1

/-- Claim C3: when no active subscription exists, `subscribe` inserts a new
active subscription whose price and expiry depend on the plan (yearly: 499 and
now + 365 days; anything else: 53 and now + 30 days) and sets the first user
record with that id to `is_subscribed = true`. -/
theorem claim_C3_subscribe_new (st : DB) (uid plan fresh : String) (now : Int)
    (h : findActiveSub st.subs uid = none) :
    (subscribe uid plan fresh now st).1.is_active = true ∧
    (subscribe uid plan fresh now st).1.user_id = uid ∧
    (subscribe uid plan fresh now st).1.id = fresh ∧
    (subscribe uid plan fresh now st).1.subscribed_at = now ∧
    (plan = "yearly" →
      (subscribe uid plan fresh now st).1.price = 499 ∧
      (subscribe uid plan fresh now st).1.expires_at = some (now + 365 * 86400)) ∧
    (plan ≠ "yearly" →
      (subscribe uid plan fresh now st).1.price = 53 ∧
      (subscribe uid plan fresh now st).1.expires_at = some (now + 30 * 86400)) ∧
    (subscribe uid plan fresh now st).2.subs =
      st.subs ++ [(subscribe uid plan fresh now st).1] ∧
    (∀ u, (subscribe uid plan fresh now st).2.users.find? (fun u => u.id == uid) = some u →
      u.is_subscribed = true) := by
  refine ⟨by simp [subscribe, h], by simp [subscribe, h], by simp [subscribe, h],
    by simp [subscribe, h], ?_, ?_, by simp [subscribe, h], ?_⟩
  · intro hp
    subst hp
    exact ⟨by simp [subscribe, h], by simp [subscribe, h]⟩
  · intro hp
    have hb : (plan == "yearly") = false := by simpa using hp
    exact ⟨by simp [subscribe, h, hb], by simp [subscribe, h, hb]⟩
  · intro u hu
    have hst : (subscribe uid plan fresh now st).2.users =
        setUserSubscribed uid true st.users := by
      simp [subscribe, h]
    rw [hst] at hu
    exact setUserSubscribed_find? uid true st.users u hu

/-- Witness for C3: a fresh yearly subscription on the empty database. -/
theorem claim_C3_witness :
    (subscribe "u9" "yearly" "s9" 10 emptyDB).1.is_active = true ∧
    (subscribe "u9" "yearly" "s9" 10 emptyDB).1.price = 499 ∧
    (subscribe "u9" "yearly" "s9" 10 emptyDB).1.expires_at = some (10 + 365 * 86400) :=
  ⟨(claim_C3_subscribe_new emptyDB "u9" "yearly" "s9" 10 (by decide)).1,
   ((claim_C3_subscribe_new emptyDB "u9" "yearly" "s9" 10 (by decide)).2.2.2.2.1 rfl).1,
   ((claim_C3_subscribe_new emptyDB "u9" "yearly" "s9" 10 (by decide)).2.2.2.2.1 rfl).2⟩

/-- Claim C4: `restore_purchase` is a pure read: it never changes the state, it
reports any active row (with no expiry check, so a stale expired-but-active row
is still reported), and it reports `{restored: false, subscription: null}` when
no active row exists. -/
theorem claim_C4_restore_pure (st : DB) (uid : String) :
    (restore_purchase uid st).2 = st ∧
    (∀ s, findActiveSub st.subs uid = some s →
      (restore_purchase uid st).1 = { restored := true, subscription := some s }) ∧
    (findActiveSub st.subs uid = none →
      (restore_purchase uid st).1 = { restored := false, subscription := none }) := by
  refine ⟨restore_purchase_state uid st, ?_, ?_⟩
  · intro s hs
    simp [restore_purchase, hs]
  · intro hn
    simp [restore_purchase, hn]

/-- Witness for C4: restoring a stale active-but-expired subscription well after
its expiry instant still reports it, and changes nothing. -/
theorem claim_C4_witness :
    (restore_purchase "u1" sampleDB).2 = sampleDB ∧
    (restore_purchase "u1" sampleDB).1 =
      { restored := true, subscription := some sampleSub } :=
  ⟨(claim_C4_restore_pure sampleDB "u1").1,
   (claim_C4_restore_pure sampleDB "u1").2.1 sampleSub (by decide)⟩

/-- Claim C5: `cancel_subscription` deactivates every active subscription row of
the user (no active rows remain, duplicates included), resets the first matching
user record's `is_subscribed` to false unconditionally, and reports
`cancelled = true` exactly when at least one row was active. -/
theorem claim_C5_cancel_all (st : DB) (uid : String) :
    (∀ s ∈ (cancel_subscription uid st).2.subs, s.user_id = uid → s.is_active = false) ∧
    (∀ u, (cancel_subscription uid st).2.users.find? (fun u => u.id == uid) = some u →
      u.is_subscribed = false) ∧
    ((cancel_subscription uid st).1.cancelled = true ↔
      ∃ s ∈ st.subs, s.user_id = uid ∧ s.is_active = true) := by
  refine ⟨?_, ?_, ?_⟩
  · intro s' hs' hu
    have hst : (cancel_subscription uid st).2.subs = deactivateAll uid st.subs := rfl
    rw [hst, deactivateAll] at hs'
    rcases List.mem_map.mp hs' with ⟨s, _, hfs⟩
    by_cases hc : (s.user_id == uid && s.is_active) = true
    · rw [if_pos hc] at hfs
      rw [← hfs]
    · rw [if_neg hc] at hfs
      subst hfs
      simpa [hu] using hc
  · intro u hu
    exact setUserSubscribed_find? uid false st.users u hu
  · have hch : (cancel_subscription uid st).1.cancelled =
        decide (countActiveFor uid st.subs > 0) := rfl
    rw [hch, decide_eq_true_eq]
    constructor
    · intro hpos
      simp only [countActiveFor] at hpos
      obtain ⟨s, hs⟩ := List.exists_mem_of_length_pos hpos
      have hm := List.mem_filter.mp hs
      refine ⟨s, hm.1, ?_⟩
      simpa using hm.2
    · rintro ⟨s, hs, hu, ha⟩
      simp only [countActiveFor]
      exact List.length_pos_of_mem (List.mem_filter.mpr ⟨hs, by simp [hu, ha]⟩)

/-- Witness for C5: cancelling the sample user deactivates its row and reports
`cancelled = true`. -/
theorem claim_C5_witness :
    (cancel_subscription "u1" sampleDB).1.cancelled = true :=
  (claim_C5_cancel_all sampleDB "u1").2.2.mpr ⟨sampleSub, by decide, by decide, by decide⟩

/-- Claim C6: for a user id with no subscription rows (the user record itself
need not exist at all — none of these operations consults the users collection
before answering), status, restore and cancel return the negative successful
results instead of any error: the operations are total functions. -/
theorem claim_C6_no_not_found (st : DB) (uid : String) (now : Int)
    (h : ∀ s ∈ st.subs, s.user_id ≠ uid) :
    get_subscription_status uid now st =
      ({ is_subscribed := false, subscription := none }, st) ∧
    restore_purchase uid st = ({ restored := false, subscription := none }, st) ∧
    (cancel_subscription uid st).1.cancelled = false := by
  have hf : findActiveSub st.subs uid = none :=
    List.find?_eq_none.mpr (fun s hs => by simp [h s hs])
  refine ⟨by simp [get_subscription_status, hf], by simp [restore_purchase, hf], ?_⟩
  have hz : countActiveFor uid st.subs = 0 := countActiveFor_eq_zero_of_none hf
  have hch : (cancel_subscription uid st).1.cancelled =
      decide (countActiveFor uid st.subs > 0) := rfl
  rw [hch, hz]
  rfl

/-- Witness for C6: a user id absent from both collections. -/
theorem claim_C6_witness :
    get_subscription_status "ghost" 5 emptyDB =
      ({ is_subscribed := false, subscription := none }, emptyDB) ∧
    restore_purchase "ghost" emptyDB =
      ({ restored := false, subscription := none }, emptyDB) ∧
    (cancel_subscription "ghost" emptyDB).1.cancelled = false :=
  claim_C6_no_not_found emptyDB "ghost" 5 (by simp [emptyDB])

/-- Claim C7: in any sequential execution of entitlement operations from a
state satisfying the 0-or-1-active-rows-per-user invariant, the invariant holds
after every operation, in particular at the moment each subscribe completes. -/
theorem claim_C7_active_invariant (st : DB) (ops : List Op) (h : ActiveInv st) :
    ActiveInv (runOps ops st) := by
  induction ops generalizing st with
  | nil => exact h
  | cons op rest ih => exact ih _ (stepOp_preserves_activeInv op st h)

/-- Witness for C7: two successive subscribes for the same user leave at most
one active row. -/
theorem claim_C7_witness :
    countActiveFor "u1"
      (runOps [Op.sub "u1" "monthly" "sA" 0, Op.sub "u1" "yearly" "sB" 5] emptyDB).subs ≤ 1 :=
  claim_C7_active_invariant emptyDB [Op.sub "u1" "monthly" "sA" 0, Op.sub "u1" "yearly" "sB" 5]
    (fun _ => Nat.zero_le 1) "u1"

/-- Claim C8: the active-to-inactive transition is one-way and terminal: no
operation ever turns an existing inactive subscription row active again — an
inactive row is preserved unchanged, in place, by every operation (a subscribe
after expiry or cancellation appends a new row instead). -/
theorem claim_C8_one_way (op : Op) (st : DB) (i : Nat) (r : Subscription)
    (h : st.subs.get? i = some r) (hr : r.is_active = false) :
    (stepOp op st).subs.get? i = some r := by
  cases op with
  | sub uid plan fresh now =>
    cases hf : findActiveSub st.subs uid with
    | some s => simpa only [stepOp, subscribe, hf] using h
    | none =>
      simp only [stepOp, subscribe, hf]
      exact get?_append_of_inactive st.subs _ i r h
  | status uid now =>
    cases hf : findActiveSub st.subs uid with
    | none => simpa only [stepOp, get_subscription_status, hf] using h
    | some s =>
      cases he : s.expires_at with
      | none => simpa only [stepOp, get_subscription_status, hf, he] using h
      | some e =>
        by_cases hlt : e < now
        · simp only [stepOp, get_subscription_status, hf, he, if_pos hlt]
          exact markInactiveById_get?_inactive s.id st.subs i r h hr
        · simpa only [stepOp, get_subscription_status, hf, he, if_neg hlt] using h
  | restore uid =>
    simp only [stepOp, restore_purchase_state]
    exact h
  | cancel uid =>
    simp only [stepOp, cancel_subscription]
    exact deactivateAll_get?_inactive uid st.subs i r h hr

/-- Witness for C8: a subscribe after cancellation leaves the cancelled row in
place, still inactive. -/
theorem claim_C8_witness :
    (stepOp (Op.sub "u1" "monthly" "s2" 0) cancelledDB).subs.get? 0 = some inactiveSub :=
  claim_C8_one_way (Op.sub "u1" "monthly" "s2" 0) cancelledDB 0 inactiveSub
    (by decide) (by decide)

/-- Claim C9: an unrecognized plan string falls back to monthly pricing and
expiry only; the subscription stored and returned carries the unrecognized plan
string verbatim. -/
theorem claim_C9_plan_verbatim (st : DB) (uid plan fresh : String) (now : Int)
    (h : findActiveSub st.subs uid = none) (_hm : plan ≠ "monthly") (hy : plan ≠ "yearly") :
    (subscribe uid plan fresh now st).1.plan = plan ∧
    (subscribe uid plan fresh now st).2.subs =
      st.subs ++ [(subscribe uid plan fresh now st).1] ∧
    (subscribe uid plan fresh now st).1.price = 53 ∧
    (subscribe uid plan fresh now st).1.expires_at = some (now + 30 * 86400) := by
  have hb : (plan == "yearly") = false := by simpa using hy
  exact ⟨by simp [subscribe, h], by simp [subscribe, h], by simp [subscribe, h, hb],
    by simp [subscribe, h, hb]⟩

/-- Witness for C9: the plan string "weird" is stored verbatim. -/
theorem claim_C9_witness :
    (subscribe "u9" "weird" "s9" 10 emptyDB).1.plan = "weird" :=
  (claim_C9_plan_verbatim emptyDB "u9" "weird" "s9" 10 (by decide) (by decide)
    (by decide)).1

/-- Claim C10: on the idempotent short-circuit path of subscribe, nothing is
written at all: the entire database state, the users collection and any
stale-false `is_subscribed` cache included, is unchanged. -/
theorem claim_C10_idempotent_frame (st : DB) (uid plan fresh : String) (now : Int)
    (s : Subscription) (h : findActiveSub st.subs uid = some s) :
    (subscribe uid plan fresh now st).2 = st ∧
    ∀ u, st.users.find? (fun u => u.id == uid) = some u →
      (subscribe uid plan fresh now st).2.users.find? (fun u => u.id == uid) = some u := by
  have h2 : (subscribe uid plan fresh now st).2 = st := by simp [subscribe, h]
  exact ⟨h2, fun u hu => by rw [h2]; exact hu⟩

/-- Witness for C10: subscribing while active on a database with a stale-false
user cache changes nothing. -/
theorem claim_C10_witness :
    (subscribe "u1" "monthly" "s2" 7 staleDB).2 = staleDB :=
  (claim_C10_idempotent_frame staleDB "u1" "monthly" "s2" 7 sampleSub (by decide)).1

end Sadaa
